import Mathlib

/-!
Shallow embedding of the request-admission core of the UnifiedAPI payment
gateway (backend/app/auth.py, backend/app/rate_limiting.py,
backend/app/payments/service.py and the provider adapters), together with
theorems settling the specification claims.

External collaborators (Redis, Supabase, the Stripe/PayPal HTTP APIs) are
modelled as oracles passed in explicitly: an `Option` client that may be
absent, boolean flags for whether an individual store operation succeeds
(a `false` flag corresponds to the operation raising an exception in
Python), and functions describing what a lookup would return.  Python
`dict` payloads that the code merely passes through (metadata,
provider_metadata) are modelled as opaque `Option String` blobs.
-/

namespace UnifiedAPI

/-! ## String primitives

List-based equivalents of Python's `str.upper`, `str.lower`,
`str.rstrip("/")`, `str.startswith` and slicing, so that every definition
evaluates by kernel reduction. -/

/-- ASCII upper-casing of one character (what Python's `str.upper` does on
the ASCII method/path/currency strings handled here). -/
def charUpper (c : Char) : Char :=
  if 'a' ≤ c ∧ c ≤ 'z' then Char.ofNat (c.toNat - 32) else c

/-- ASCII lower-casing of one character. -/
def charLower (c : Char) : Char :=
  if 'A' ≤ c ∧ c ≤ 'Z' then Char.ofNat (c.toNat + 32) else c

/-- Python `s.upper()` on ASCII strings. -/
def strUpper (s : String) : String := ⟨s.data.map charUpper⟩

/-- Python `s.lower()` on ASCII strings. -/
def strLower (s : String) : String := ⟨s.data.map charLower⟩

/-- Python `s.rstrip("/")`. -/
def rstripSlash (s : String) : String :=
  ⟨(s.data.reverse.dropWhile (fun c => c = '/')).reverse⟩

/-- Whether the second character list starts with the first. -/
def listStartsWith : List Char → List Char → Bool
  | [], _ => true
  | _ :: _, [] => false
  | p :: ps, c :: cs => (p = c) && listStartsWith ps cs

/-- Python `s.startswith(pre)`. -/
def strStartsWith (s pre : String) : Bool := listStartsWith pre.data s.data

/-- Python `s[n:]` (drop the first n characters). -/
def strDrop (s : String) (n : Nat) : String := ⟨s.data.drop n⟩

/-! ## auth.py: route tables and normalization -/

/-- PUBLIC_ROUTES from auth.py: routes that do not require authentication. -/
def PUBLIC_ROUTES : List (String × String) :=
  [("GET", "/"),
   ("GET", "/health"),
   ("GET", "/docs"),
   ("GET", "/redoc"),
   ("GET", "/openapi.json"),
   ("POST", "/api/v1/customers")]

/-- BOOTSTRAP_ALLOWED_ROUTES from auth.py: routes where the bootstrap key is allowed. -/
def BOOTSTRAP_ALLOWED_ROUTES : List (String × String) :=
  [("POST", "/api/v1/api-keys")]

/-- AUTH_BYPASS_METHODS from auth.py: HTTP methods that bypass authentication. -/
def AUTH_BYPASS_METHODS : List String := ["OPTIONS"]

/-- auth.py `_get_route_key`: normalized (method, path) key; the path has
trailing slashes stripped (Python `path.rstrip("/")`) unless it is exactly
"/", and the method is upper-cased. -/
def get_route_key (method path : String) : String × String :=
  let normalizedPath := if path = "/" then path else rstripSlash path
  (strUpper method, normalizedPath)

/-- auth.py `is_public_route`: OPTIONS always bypasses; otherwise membership
of the normalized route key in PUBLIC_ROUTES. -/
def is_public_route (method path : String) : Bool :=
  if strUpper method ∈ AUTH_BYPASS_METHODS then true
  else get_route_key method path ∈ PUBLIC_ROUTES

/-- auth.py `is_bootstrap_allowed_route`. -/
def is_bootstrap_allowed_route (method path : String) : Bool :=
  get_route_key method path ∈ BOOTSTRAP_ALLOWED_ROUTES

/-! ## auth.py: data model -/

/-- auth.py `AuthContext` dataclass. -/
structure AuthContext where
  customer_id : Option String
  tier : String
  api_key_id : Option String := none
  is_bootstrap : Bool := false
  is_static_key : Bool := false
deriving DecidableEq, Repr

/-- The authentication errors auth.py can raise (app/errors.py classes
MissingAPIKeyError, InvalidAPIKeyError, BootstrapKeyNotAllowedError).
auth.py raises no other error kind; in particular it has no
internal-error kind. -/
inductive AuthErr where
  | missingAPIKey
  | invalidAPIKey
  | bootstrapKeyNotAllowed
deriving DecidableEq, Repr

/-- The payload cached in Redis for an API key and returned by the
Supabase validation helper: customer_id, tier and (optionally) the
api_key id. -/
structure KeyData where
  customer_id : String
  tier : String
  api_key_id : Option String
deriving DecidableEq, Repr

/-- Outcome of the Supabase api_keys lookup as an external oracle:
the query finds an active row (with the joined tier), finds nothing,
or the store itself errors / is unreachable. -/
inductive SupaOutcome where
  | found (data : KeyData)
  | noMatch
  | storeError
deriving DecidableEq, Repr

/-- The subset of app Settings that authenticate_request reads. -/
structure AuthSettings where
  bootstrap_api_key : Option String
  allowed_api_keys : List String
deriving Repr

/-- Python truthiness of an optional string (`None` and `""` are falsy). -/
def pyTruthy : Option String → Bool
  | none => false
  | some s => !(s = "")

/-- Environment of external collaborators for authenticate_request.
`redisCache` is the Redis auth cache contents (association list from the
full cache key "api_key:" ++ key to the cached payload), `none` when no
Redis client is available.  `redisGetOk` / `redisSetOk` are `false` when
the corresponding Redis operation raises.  `supabase` is the Supabase
client (`none` when unavailable at import time) as a lookup oracle.
`clerkResolve` models `_validate_clerk_token`'s JWT-decode-plus-customer
lookup: what it would return for a given bearer token (the code returns
`None` both on decode failure and on no matching customer). -/
structure AuthEnv where
  redisCache : Option (List (String × KeyData))
  redisGetOk : Bool
  redisSetOk : Bool
  supabase : Option (String → SupaOutcome)
  clerkResolve : String → Option (String × String)

/-- auth.py `_get_cached_api_key`: `None` client or a failed `get` (the
exception is caught and logged) is a cache miss. -/
def get_cached_api_key (env : AuthEnv) (api_key : String) : Option KeyData :=
  match env.redisCache with
  | none => none
  | some cache =>
    if env.redisGetOk then cache.lookup ("api_key:" ++ api_key) else none

/-- auth.py `_set_cached_api_key`: no-op when the client is absent; a
failed `set` is caught and logged, leaving the cache unchanged. -/
def set_cached_api_key (env : AuthEnv) (api_key : String) (data : KeyData) :
    Option (List (String × KeyData)) :=
  match env.redisCache with
  | none => none
  | some cache =>
    if env.redisSetOk then some ((("api_key:" ++ api_key), data) :: cache) else some cache

/-- auth.py `_validate_api_key_supabase`: an absent client returns `None`;
a store error is caught (logged as a warning) and also returns `None`, so
a store failure is indistinguishable from no match for the caller.  The
fire-and-forget last_used_at update is suppressed and not modelled. -/
def validate_api_key_supabase (env : AuthEnv) (api_key : String) : Option KeyData :=
  match env.supabase with
  | none => none
  | some lookup =>
    match lookup api_key with
    | .found data => some data
    | .noMatch => none
    | .storeError => none

/-- auth.py `_validate_clerk_token`: requires the Supabase client; the
token-decode and the customers lookups (by user_id, then by email, with
the best-effort user_id back-fill) are folded into the `clerkResolve`
oracle returning `(customer_id, tier)`. -/
def validate_clerk_token (env : AuthEnv) (token : String) : Option (String × String) :=
  match env.supabase with
  | none => none
  | some _ => env.clerkResolve token

/-- auth.py `authenticate_request`.  Returns the authentication outcome
together with the Redis auth-cache contents after the call (step 7
populates the cache on a successful Supabase validation). -/
def authenticate_request (env : AuthEnv) (settings : AuthSettings)
    (method path : String) (x_api_key authorization : Option String) :
    Except AuthErr AuthContext × Option (List (String × KeyData)) :=
  if is_public_route method path then
    (.ok ⟨none, "public", none, false, false⟩, env.redisCache)
  else
    let clerkHit : Option (String × String) :=
      if !(pyTruthy x_api_key) then
        match authorization with
        | some auth =>
          if strStartsWith auth "Bearer " then
            validate_clerk_token env (strDrop auth 7)
          else none
        | none => none
      else none
    match clerkHit with
    | some (cid, tier) => (.ok ⟨some cid, tier, none, false, false⟩, env.redisCache)
    | none =>
      if !(pyTruthy x_api_key) then
        (.error .missingAPIKey, env.redisCache)
      else
        let key := x_api_key.getD ""
        if pyTruthy settings.bootstrap_api_key ∧ some key = settings.bootstrap_api_key then
          if !(is_bootstrap_allowed_route method path) then
            (.error .bootstrapKeyNotAllowed, env.redisCache)
          else
            (.ok ⟨none, "admin", none, true, false⟩, env.redisCache)
        else if !(settings.allowed_api_keys = []) ∧ key ∈ settings.allowed_api_keys then
          (.ok ⟨none, "admin", none, false, true⟩, env.redisCache)
        else
          match get_cached_api_key env key with
          | some data =>
            (.ok ⟨some data.customer_id, data.tier, data.api_key_id, false, false⟩,
             env.redisCache)
          | none =>
            match validate_api_key_supabase env key with
            | some data =>
              (.ok ⟨some data.customer_id, data.tier, data.api_key_id, false, false⟩,
               set_cached_api_key env key data)
            | none => (.error .invalidAPIKey, env.redisCache)

/-- auth.py `require_customer` (given the AuthContext that
`get_auth_context` found on the request state). -/
def require_customer (ctx : AuthContext) : Except AuthErr AuthContext :=
  if ctx.customer_id = none ∧ ctx.is_static_key = false then
    .error .missingAPIKey
  else
    .ok ctx

/-! ## rate_limiting.py -/

/-- TIER_LIMITS from rate_limiting.py (requests per minute). -/
def TIER_LIMITS : List (String × Int) :=
  [("starter", 100), ("growth", 500), ("scale", 2000), ("admin", 10000), ("public", 60)]

/-- RATE_LIMIT_WINDOW from rate_limiting.py (seconds). -/
def RATE_LIMIT_WINDOW : Int := 60

/-- rate_limiting.py `RateLimitInfo` dataclass. -/
structure RateLimitInfo where
  limit : Int
  remaining : Int
  reset_at : Int
  is_exceeded : Bool
deriving DecidableEq, Repr

/-- rate_limiting.py `_get_tier_limit`: the tier's limit, defaulting to
the starter limit for an unrecognized tier, and the public limit when no
auth context is present. -/
def get_tier_limit (auth_ctx : Option AuthContext) : Int :=
  match auth_ctx with
  | none => ((TIER_LIMITS.lookup "public").getD 60)
  | some ctx => (TIER_LIMITS.lookup (strLower ctx.tier)).getD ((TIER_LIMITS.lookup "starter").getD 100)

/-- rate_limiting.py `is_rate_limit_exempt`: membership of the normalized
route key in PUBLIC_ROUTES.  Unlike `is_public_route` there is no special
case for OPTIONS requests. -/
def is_rate_limit_exempt (method path : String) : Bool :=
  get_route_key method path ∈ PUBLIC_ROUTES

/-- rate_limit_middleware adds the three X-RateLimit-* headers on every
non-exempt request, both on the 429 branch and on the pass-through branch;
exempt requests skip the check entirely and get no headers. -/
def rate_limit_headers_emitted (method path : String) : Bool :=
  !(is_rate_limit_exempt method path)

/-- The per-identifier Redis sorted set of request timestamps.  The code
stores member `str(now)` with score `now`; since `str` is injective on
ints the member is represented by its integer value (so two requests in
the same second share one member, exactly as in Redis). -/
def zremrangebyscore (s : List Int) (lo hi : Int) : List Int :=
  s.filter (fun x => !(decide (lo ≤ x) && decide (x ≤ hi)))

/-- Redis ZADD of member `str(now)` with score `now`: inserts the member,
or (as the score equals the member here) leaves the set unchanged when
the member already exists. -/
def zadd (s : List Int) (m : Int) : List Int :=
  if m ∈ s then s else m :: s

/-- Score of the oldest entry (`zrange key 0 0 withscores`): the minimum
score, `none` on an empty set. -/
def zminScore (s : List Int) : Option Int :=
  s.foldl (fun acc x =>
    match acc with
    | none => some x
    | some y => some (min x y)) none

/-- Which of the Redis operations inside `check_rate_limit` succeed; a
`false` flag means that operation raises, sending control to the
`except` branch.  `redisPresent = false` models `redis_client is None`. -/
structure RLEnv where
  redisPresent : Bool
  pipelineOk : Bool
  zrangeOk : Bool
  zaddOk : Bool
  expireOk : Bool
deriving DecidableEq, Repr

/-- The fail-open result: full remaining quota, not exceeded, window
reset one full window from now. -/
def failOpenInfo (limit now : Int) : RateLimitInfo :=
  ⟨limit, limit, now + RATE_LIMIT_WINDOW, false⟩

/-- rate_limiting.py `check_rate_limit` for one identifier's sorted set
`s` at time `now`.  Returns the info and the set contents afterwards.
The pipeline (zremrangebyscore + zcard) is modelled atomically: if it
fails nothing is applied.  A zrange failure leaves the removals applied;
a zadd failure skips the insertion; an expire failure happens after the
insertion.  The `expire ttl = 2 * window` call only affects whole-key
expiry under idleness, which no claim here depends on, so the TTL value
is not part of the state. -/
def check_rate_limit (env : RLEnv) (s : List Int) (now limit : Int) :
    RateLimitInfo × List Int :=
  if !env.redisPresent then (failOpenInfo limit now, s)
  else if !env.pipelineOk then (failOpenInfo limit now, s)
  else
    let windowStart := now - RATE_LIMIT_WINDOW
    let s1 := zremrangebyscore s 0 windowStart
    let currentCount : Int := s1.length
    let remaining0 := max 0 (limit - currentCount)
    let isExceeded := decide (currentCount ≥ limit)
    if !env.zrangeOk then (failOpenInfo limit now, s1)
    else
      let resetAt :=
        match zminScore s1 with
        | some oldest => oldest + RATE_LIMIT_WINDOW
        | none => now + RATE_LIMIT_WINDOW
      if isExceeded then (⟨limit, remaining0, resetAt, true⟩, s1)
      else if !env.zaddOk then (failOpenInfo limit now, s1)
      else if !env.expireOk then (failOpenInfo limit now, zadd s1 now)
      else (⟨limit, max 0 (remaining0 - 1), resetAt, false⟩, zadd s1 now)

/-- An environment in which Redis is present and every operation succeeds. -/
def allOkRL : RLEnv := ⟨true, true, true, true, true⟩

/-- The sorted-set contents after `n` healthy checks at times
`t 0, t 1, ..., t (n-1)` against limit `limit`, starting from an empty set. -/
def rlStateAfter (t : Nat → Int) (limit : Int) : Nat → List Int
  | 0 => []
  | n + 1 => (check_rate_limit allOkRL (rlStateAfter t limit n) (t n) limit).2

/-- The RateLimitInfo returned by the `(n+1)`-th healthy check (0-based
index `n`) in the same run. -/
def rlInfoAt (t : Nat → Int) (limit : Int) (n : Nat) : RateLimitInfo :=
  (check_rate_limit allOkRL (rlStateAfter t limit n) (t n) limit).1

/-! ## payments/types.py and providers -/

/-- payments/types.py `PaymentProvider`. -/
inductive PaymentProvider where
  | stripe
  | paypal
deriving DecidableEq, Repr

/-- The enum's string value. -/
def PaymentProvider.value : PaymentProvider → String
  | .stripe => "stripe"
  | .paypal => "paypal"

/-- payments/types.py `PaymentStatus`. -/
inductive PaymentStatus where
  | pending
  | completed
  | failed
  | refunded
  | processing
deriving DecidableEq, Repr

/-- The payment-creation request as `PaymentService.create_payment` reads
it: amount in minor units, currency, the requested provider, the
payment-method token, the tenant's customer id, and optional description
and metadata (metadata is an opaque pass-through blob). -/
structure CreatePaymentRequest where
  amount : Nat
  currency : String
  provider : PaymentProvider
  payment_method : String
  customer_id : String
  description : Option String
  metadata : Option String
deriving DecidableEq, Repr

/-- payments/types.py `CreatePaymentResponse`. -/
structure CreatePaymentResponse where
  id : String
  provider_transaction_id : String
  amount : Nat
  currency : String
  status : PaymentStatus
  created_at : String
  trace_id : Option String
  metadata : Option String
  provider_metadata : Option String
  client_secret : Option String
deriving DecidableEq, Repr

/-- providers/base.py `ProviderPaymentResult`. -/
structure ProviderPaymentResult where
  provider_transaction_id : String
  status : PaymentStatus
  client_secret : Option String
  provider_metadata : Option String
deriving DecidableEq, Repr

/-- The exceptions the create-payment path can raise
(payments/errors.py): InvalidProviderError from adapter resolution,
PaymentFailedError / ProviderError from the adapter call, or any other
exception. -/
inductive PaymentExc where
  | invalidProvider (provider : String)
  | paymentFailed (msg : String)
  | providerError (msg : String)
  | other (msg : String)
deriving DecidableEq, Repr

/-- Python `str(e)` for the modelled exceptions (the APIError message). -/
def PaymentExc.message : PaymentExc → String
  | .invalidProvider p => "Invalid payment provider: " ++ p
  | .paymentFailed m => m
  | .providerError m => m
  | .other m => m

/-- `getattr(e, "status_code", 500)` for the modelled exceptions. -/
def PaymentExc.status_code : PaymentExc → Nat
  | .invalidProvider _ => 400
  | .paymentFailed _ => 400
  | .providerError _ => 502
  | .other _ => 500

/-- One entry written through payments/audit.py (log_payment_success /
log_payment_failure).  Audit-sink failures are swallowed inside
log_payment_audit and cannot change these fields or the request outcome. -/
structure AuditEntry where
  action : String
  status : Nat
  latency_ms : Nat
  error_message : Option String
  provider : String
  customer_id : Option String
deriving DecidableEq, Repr

/-- Observable effects of one `create_payment` call: whether the provider
adapter's create method was invoked, whether the PaymentRecord insert
succeeded, and the audit entries written. -/
structure PaymentTrace where
  providerInvoked : Bool
  dbSaved : Bool
  auditEntries : List AuditEntry
deriving DecidableEq, Repr

/-- Environment of external collaborators for one
`PaymentService.create_payment` call.  `redis` is the idempotency cache
(association list from full cache key "idempotency:" ++ key to the cached
serialized response, deserialization being the identity of this model);
`redisGetOk` / `redisSetOk` are `false` when that Redis operation raises
(caught and logged).  `providerConfigured = false` makes adapter
construction raise ValueError, which `_get_adapter` converts to
InvalidProviderError.  `adapterOutcome` is what the provider adapter's
create call returns or raises when invoked.  `dbInsertOk = false` makes
the Supabase insert in `_save_payment_to_db` raise (caught and logged).
`paymentId`, `createdAt`, `latencyMs` and `traceId` model uuid4(), the
clock and the trace context. -/
structure PaymentEnv where
  redis : Option (List (String × CreatePaymentResponse))
  redisGetOk : Bool
  redisSetOk : Bool
  supabasePresent : Bool
  dbInsertOk : Bool
  providerConfigured : Bool
  adapterOutcome : Except PaymentExc ProviderPaymentResult
  paymentId : String
  createdAt : String
  traceId : Option String
  latencyMs : Nat

/-- service.py `_get_cached_response`: `None` when Redis is absent or the
key is falsy; a failed `get` is caught and treated as a miss. -/
def get_cached_response (env : PaymentEnv) (idempotency_key : String) :
    Option CreatePaymentResponse :=
  match env.redis with
  | none => none
  | some cache =>
    if idempotency_key = "" then none
    else if env.redisGetOk then cache.lookup ("idempotency:" ++ idempotency_key)
    else none

/-- service.py `_set_cached_response`: no-op when Redis is absent or the
key is falsy; a failed `set` is caught and logged, leaving the cache
unchanged. -/
def set_cached_response (env : PaymentEnv) (idempotency_key : String)
    (response : CreatePaymentResponse) : Option (List (String × CreatePaymentResponse)) :=
  match env.redis with
  | none => none
  | some cache =>
    if idempotency_key = "" then some cache
    else if env.redisSetOk then
      some ((("idempotency:" ++ idempotency_key), response) :: cache)
    else some cache

/-- The failure audit entry `create_payment`'s except-branch writes via
log_payment_failure. -/
def failureAuditEntry (env : PaymentEnv) (req : CreatePaymentRequest)
    (customer_id : Option String) (e : PaymentExc) : AuditEntry :=
  ⟨"PAYMENT_FAILED", e.status_code, env.latencyMs, some e.message,
   req.provider.value, customer_id.orElse (fun _ => some req.customer_id)⟩

/-- The success audit entry written via log_payment_success. -/
def successAuditEntry (env : PaymentEnv) (req : CreatePaymentRequest)
    (customer_id : Option String) : AuditEntry :=
  ⟨"PAYMENT_CREATED", 200, env.latencyMs, none,
   req.provider.value, customer_id.orElse (fun _ => some req.customer_id)⟩

/-- The CreatePaymentResponse `create_payment` builds after a successful
adapter call. -/
def buildPaymentResponse (env : PaymentEnv) (req : CreatePaymentRequest)
    (result : ProviderPaymentResult) : CreatePaymentResponse :=
  ⟨env.paymentId, result.provider_transaction_id, req.amount,
   strUpper req.currency, result.status, env.createdAt, env.traceId,
   req.metadata, result.provider_metadata, result.client_secret⟩

/-- service.py `PaymentService.create_payment`.  Returns the outcome, the
idempotency-cache contents after the call, and the observable trace.

Control flow mirrors the source: an idempotency cache hit returns the
deserialized cached response before the `try` block (no adapter call, no
audit entry, no cache write).  Otherwise `_get_adapter` resolves the
adapter (InvalidProviderError when unconfigured), the adapter's
create_payment runs, a payment id is minted, `_save_payment_to_db` runs
when Supabase is configured (its own failure is caught inside and
swallowed), the response is built, cached under the key when one was
supplied, and a success audit entry is written.  Any exception inside the
`try` reaches the except-branch, which writes a failure audit entry and
re-raises the same exception. -/
def create_payment (env : PaymentEnv) (req : CreatePaymentRequest)
    (customer_id : Option String) (idempotency_key : Option String) :
    Except PaymentExc CreatePaymentResponse
      × Option (List (String × CreatePaymentResponse)) × PaymentTrace :=
  let cacheHit : Option CreatePaymentResponse :=
    if pyTruthy idempotency_key then
      get_cached_response env (idempotency_key.getD "")
    else none
  match cacheHit with
  | some cached => (.ok cached, env.redis, ⟨false, false, []⟩)
  | none =>
    if !env.providerConfigured then
      let e := PaymentExc.invalidProvider req.provider.value
      (.error e, env.redis, ⟨false, false, [failureAuditEntry env req customer_id e]⟩)
    else
      match env.adapterOutcome with
      | .error e =>
        (.error e, env.redis, ⟨true, false, [failureAuditEntry env req customer_id e]⟩)
      | .ok result =>
        let dbSaved := env.supabasePresent && env.dbInsertOk
        let response := buildPaymentResponse env req result
        let cache2 :=
          if pyTruthy idempotency_key then
            set_cached_response env (idempotency_key.getD "") response
          else env.redis
        (.ok response, cache2,
         ⟨true, dbSaved, [successAuditEntry env req customer_id]⟩)

/-! ## Currency handling at the provider boundary -/

/-- providers/base.py `is_zero_decimal_currency`. -/
def is_zero_decimal_currency (currency : String) : Bool :=
  strUpper currency ∈
    ["BIF", "CLP", "DJF", "GNF", "JPY", "KMF", "KRW", "MGA",
     "PYG", "RWF", "UGX", "VND", "VUV", "XAF", "XOF", "XPF"]

/-- providers/base.py `normalize_currency`. -/
def normalize_currency (currency : String) : String := strUpper currency

/-- Python `f"{amount / 100:.2f}"` for a non-negative int amount: the
exact two-decimal rendering of amount/100.  (For amounts far below 2^45
the float `amount / 100` is within a quarter-ulp of the true decimal, so
the .2f rounding reproduces exact integer division with remainder.) -/
def twoDecimalString (amount : Nat) : String :=
  let frac := amount % 100
  toString (amount / 100) ++ "." ++ (if frac < 10 then "0" else "") ++ toString frac

/-- paypal.py create_payment amount conversion: zero-decimal currencies
are sent as whole units (`str(amount)`), all others as the two-decimal
major-unit string. -/
def paypal_decimal_amount (amount : Nat) (currency : String) : String :=
  if is_zero_decimal_currency currency then toString amount
  else twoDecimalString amount

/-- The amount value each adapter puts on the wire for a create-payment
call.  stripe.py passes the integer minor-unit `amount` through unchanged
into `intent_params` for every currency; paypal.py converts via
`paypal_decimal_amount` after `normalize_currency`. -/
def amount_sent_to_provider (p : PaymentProvider) (amount : Nat) (currency : String) : String :=
  match p with
  | .stripe => toString amount
  | .paypal => paypal_decimal_amount amount (normalize_currency currency)

/-! ## Helper definitions used by the claim statements -/

/-- What the idempotency cache physically holds for a key, independent of
whether a read would succeed: `none` when Redis is absent or has no entry
under "idempotency:" ++ key. -/
def idem_cache_lookup (redis : Option (List (String × CreatePaymentResponse)))
    (k : String) : Option CreatePaymentResponse :=
  match redis with
  | none => none
  | some cache => cache.lookup ("idempotency:" ++ k)

/-- The exception the attempt inside `create_payment`'s try-block raises,
if any: InvalidProviderError from `_get_adapter` when the adapter is not
configured, otherwise whatever the adapter call raises. -/
def attemptExc (env : PaymentEnv) (req : CreatePaymentRequest) : Option PaymentExc :=
  if !env.providerConfigured then some (.invalidProvider req.provider.value)
  else
    match env.adapterOutcome with
    | .error e => some e
    | .ok _ => none

/-- Expected sorted-set contents after `i` distinct-timestamp checks:
the timestamps `t 0 .. t (i-1)`, most recent first. -/
def expSt (t : Nat → Int) (i : Nat) : List Int :=
  ((List.range i).map t).reverse

/-- A schedule in which every check happens in the same second. -/
def sameSec : Nat → Int := fun _ => 1000

/-- A bare collaborator environment for auth: no Redis, no Supabase. -/
def bareAuthEnv : AuthEnv := ⟨none, true, true, none, fun _ => none⟩

/-- An auth environment whose Redis cache is reachable but empty and whose
Supabase store errors on every lookup. -/
def storeErrAuthEnv : AuthEnv := ⟨some [], true, true, some (fun _ => .storeError), fun _ => none⟩

/-- Settings with only a bootstrap key configured. -/
def bootSettings : AuthSettings := ⟨some "boot-secret", []⟩

/-- A stored response used by the concrete idempotency-cache scenarios. -/
def wResp : CreatePaymentResponse :=
  ⟨"pid0", "tx0", 150, "USD", .completed, "2024-01-01T00:00:00", none, none, none, none⟩

/-- A concrete create-payment request. -/
def wReq : CreatePaymentRequest := ⟨150, "usd", .stripe, "pm_1", "cust1", none, none⟩

/-- Environment with a warm idempotency cache entry for key "abc". -/
def wEnvHit : PaymentEnv :=
  ⟨some [("idempotency:abc", wResp)], true, true, true, true, true,
   .ok ⟨"tx1", .completed, none, none⟩, "pid1", "t1", none, 5⟩

/-- Environment whose adapter call raises a ProviderError. -/
def wEnvFail : PaymentEnv :=
  ⟨some [], true, true, true, true, true, .error (.providerError "boom"),
   "pid2", "t2", none, 7⟩

/-- Environment where the adapter succeeds but the PaymentRecord insert fails. -/
def wEnvDbFail : PaymentEnv :=
  ⟨none, true, true, true, false, true, .ok ⟨"tx9", .completed, none, none⟩,
   "pid9", "t9", none, 3⟩

/-! ## Theorems -/

/-- C10: `require_customer` raises MissingAPIKeyError exactly when the
context has `customer_id = None` and `is_static_key = false`; any other
context (in particular a static-admin context with no tenant) passes and
is returned unchanged. -/
theorem require_customer_characterization (ctx : AuthContext) :
    (require_customer ctx = .error .missingAPIKey ↔
      ctx.customer_id = none ∧ ctx.is_static_key = false) ∧
    (¬(ctx.customer_id = none ∧ ctx.is_static_key = false) →
      require_customer ctx = .ok ctx) := by
  by_cases h : ctx.customer_id = none ∧ ctx.is_static_key = false <;>
    simp [require_customer, h]

/-- Witness for C10: the static-admin context (no tenant, static key)
passes `require_customer` unchanged. -/
theorem require_customer_characterization_witness :
    require_customer ⟨none, "admin", none, false, true⟩ =
      .ok ⟨none, "admin", none, false, true⟩ :=
  (require_customer_characterization ⟨none, "admin", none, false, true⟩).2 (by simp)

/-- Counterexample for C6: the Stripe adapter sends amount 150 in USD to
the provider as the integer minor-unit value 150, not as the decimal
major-unit value 1.50 (stripe.py puts `amount` into `intent_params`
unchanged for every currency). -/
theorem stripe_usd_minor_units_counterexample :
    amount_sent_to_provider PaymentProvider.stripe 150 "USD" = "150" ∧
    amount_sent_to_provider PaymentProvider.stripe 150 "USD" ≠ "1.50" := by
  exact ⟨rfl, by decide⟩

/-- C6 amended: amount 150 in the zero-decimal currency JPY reaches both
providers as whole units ("150"); conversion of minor units to decimal
major units ("1.50" for USD) happens only in the PayPal adapter, while
the Stripe adapter passes the integer minor-unit amount through unchanged
for every currency (Stripe's wire format itself takes minor units). -/
theorem amount_at_provider_boundary :
    amount_sent_to_provider PaymentProvider.paypal 150 "JPY" = "150" ∧
    amount_sent_to_provider PaymentProvider.paypal 150 "USD" = "1.50" ∧
    amount_sent_to_provider PaymentProvider.stripe 150 "JPY" = "150" ∧
    amount_sent_to_provider PaymentProvider.stripe 150 "USD" = "150" ∧
    (∀ (amount : Nat) (currency : String),
      amount_sent_to_provider PaymentProvider.stripe amount currency = toString amount) :=
  ⟨by decide, by decide, rfl, rfl, fun _ _ => rfl⟩

/-- Counterexample for C7: an OPTIONS request to a path outside the
public allow-list bypasses authentication but is NOT exempt from rate
limiting (`is_rate_limit_exempt` checks only PUBLIC_ROUTES membership and
has no OPTIONS special case), so the middleware runs the rate-limit check
and attaches X-RateLimit-* headers to it. -/
theorem options_not_rate_limit_exempt_counterexample :
    is_public_route "OPTIONS" "/api/v1/payments" = true ∧
    is_rate_limit_exempt "OPTIONS" "/api/v1/payments" = false ∧
    rate_limit_headers_emitted "OPTIONS" "/api/v1/payments" = true := by
  refine ⟨by decide, by decide, by decide⟩

/-- C7 amended: every request whose normalized (method, path) key is on
the public allow-list bypasses authentication (public-tier context, null
tenant, no credential needed), is exempt from rate limiting and receives
no X-RateLimit-* headers; an OPTIONS request to any path bypasses
authentication the same way, but is rate-limit exempt only when its
normalized key is itself on the allow-list. -/
theorem public_allowlist_and_options_bypass :
    (∀ method path, get_route_key method path ∈ PUBLIC_ROUTES →
      is_public_route method path = true ∧
      is_rate_limit_exempt method path = true ∧
      rate_limit_headers_emitted method path = false ∧
      (∀ env settings x_api_key authorization,
        (authenticate_request env settings method path x_api_key authorization).1 =
          .ok ⟨none, "public", none, false, false⟩)) ∧
    (∀ path env settings x_api_key authorization,
      is_public_route "OPTIONS" path = true ∧
      (authenticate_request env settings "OPTIONS" path x_api_key authorization).1 =
        .ok ⟨none, "public", none, false, false⟩) := by
  constructor
  · intro method path h
    have hpub : is_public_route method path = true := by
      unfold is_public_route
      split
      · rfl
      · simpa using h
    refine ⟨hpub, by simpa [is_rate_limit_exempt] using h,
      by simp [rate_limit_headers_emitted, is_rate_limit_exempt, h], ?_⟩
    intro env settings xk auth
    simp [authenticate_request, hpub]
  · intro path env settings xk auth
    have hpub : is_public_route "OPTIONS" path = true := by
      unfold is_public_route
      rw [if_pos (by decide)]
    exact ⟨hpub, by simp [authenticate_request, hpub]⟩

/-- Witness for C7 amended: GET /health is on the allow-list, is
rate-limit exempt, and authenticates to the public context with no
credential presented. -/
theorem public_allowlist_and_options_bypass_witness :
    is_rate_limit_exempt "GET" "/health" = true ∧
    (authenticate_request bareAuthEnv ⟨none, []⟩ "GET" "/health" none none).1 =
      .ok ⟨none, "public", none, false, false⟩ :=
  ⟨(public_allowlist_and_options_bypass.1 "GET" "/health" (by decide)).2.1,
   (public_allowlist_and_options_bypass.1 "GET" "/health" (by decide)).2.2.2
     bareAuthEnv ⟨none, []⟩ none none⟩

/-- C5: `check_rate_limit` is a total function (it cannot raise), and
whenever the counter store is absent or a store operation that the check
actually performs fails (the pipeline, the zrange, or — only reachable on
the not-exceeded branch — the zadd or expire), it returns the fail-open
info: not exceeded, remaining equal to the full limit, reset_at one full
window from now. -/
theorem check_rate_limit_fail_open (env : RLEnv) (s : List Int) (now limit : Int)
    (h : env.redisPresent = false ∨ env.pipelineOk = false ∨ env.zrangeOk = false ∨
      ((((zremrangebyscore s 0 (now - RATE_LIMIT_WINDOW)).length : Int) < limit) ∧
        (env.zaddOk = false ∨ env.expireOk = false))) :
    (check_rate_limit env s now limit).1.limit = limit ∧
    (check_rate_limit env s now limit).1.remaining = limit ∧
    (check_rate_limit env s now limit).1.reset_at = now + RATE_LIMIT_WINDOW ∧
    (check_rate_limit env s now limit).1.is_exceeded = false := by
  have key : (check_rate_limit env s now limit).1 = failOpenInfo limit now := by
    unfold check_rate_limit
    cases h1 : env.redisPresent with
    | false => simp
    | true =>
      cases h2 : env.pipelineOk with
      | false => simp
      | true =>
        rcases h with h | h | h | ⟨hlt, hop⟩
        · rw [h] at h1; exact absurd h1 (by simp)
        · rw [h] at h2; exact absurd h2 (by simp)
        · simp [h]
        · cases h3 : env.zrangeOk with
          | false => simp
          | true =>
            have hex :
                decide
                  ((((zremrangebyscore s 0 (now - RATE_LIMIT_WINDOW)).length : Int)) ≥ limit)
                  = false := decide_eq_false (not_le.mpr hlt)
            rcases hop with h4 | h4
            · simp [hex, h4]
            · cases h5 : env.zaddOk with
              | false => simp [hex]
              | true => simp [hex, h4]
  rw [key]
  exact ⟨rfl, rfl, rfl, rfl⟩

/-- Witness for C5: a concrete check whose pipeline operation fails
returns the full limit, not exceeded. -/
theorem check_rate_limit_fail_open_witness :
    (check_rate_limit ⟨true, false, true, true, true⟩ [10, 20] 1000 3).1.remaining = 3 ∧
    (check_rate_limit ⟨true, false, true, true, true⟩ [10, 20] 1000 3).1.is_exceeded = false ∧
    (check_rate_limit ⟨true, false, true, true, true⟩ [10, 20] 1000 3).1.reset_at = 1060 :=
  ⟨(check_rate_limit_fail_open _ _ _ _ (Or.inr (Or.inl rfl))).2.1,
   (check_rate_limit_fail_open _ _ _ _ (Or.inr (Or.inl rfl))).2.2.2,
   (check_rate_limit_fail_open ⟨true, false, true, true, true⟩ [10, 20] 1000 3
     (Or.inr (Or.inl rfl))).2.2.1⟩

/-- Counterexample for C8: the public-route check runs before the
bootstrap check, so presenting the (valid, configured) bootstrap
credential on GET /health — a route that is not on the bootstrap
allow-list — does not fail with BootstrapKeyNotAllowedError; it succeeds
with the public-tier context. -/
theorem bootstrap_on_public_route_counterexample :
    is_bootstrap_allowed_route "GET" "/health" = false ∧
    (authenticate_request bareAuthEnv bootSettings "GET" "/health"
      (some "boot-secret") none).1 = .ok ⟨none, "public", none, false, false⟩ := by
  exact ⟨by decide, rfl⟩

/-- C8 amended: presenting the configured bootstrap credential on any
NON-PUBLIC route outside the bootstrap allow-list fails with
BootstrapKeyNotAllowedError even though the credential is valid; on an
allow-listed route it produces the admin-tier context with null tenant
and is_bootstrap = true.  (On a public route the public-route bypass wins
and no credential is examined at all.) -/
theorem bootstrap_scoping (env : AuthEnv) (settings : AuthSettings)
    (method path b : String)
    (hb : settings.bootstrap_api_key = some b) (hbne : b ≠ "")
    (hpub : is_public_route method path = false) :
    (is_bootstrap_allowed_route method path = false →
      (authenticate_request env settings method path (some b) none).1 =
        .error .bootstrapKeyNotAllowed) ∧
    (is_bootstrap_allowed_route method path = true →
      (authenticate_request env settings method path (some b) none).1 =
        .ok ⟨none, "admin", none, true, false⟩) := by
  constructor <;> intro hroute <;>
    simp [authenticate_request, hpub, hb, pyTruthy, hbne, hroute]

/-- Witness for C8 amended: the bootstrap credential on POST
/api/v1/api-keys (the allow-listed route) yields the admin bootstrap
context. -/
theorem bootstrap_scoping_witness :
    (authenticate_request bareAuthEnv bootSettings "POST" "/api/v1/api-keys"
      (some "boot-secret") none).1 = .ok ⟨none, "admin", none, true, false⟩ :=
  (bootstrap_scoping bareAuthEnv bootSettings "POST" "/api/v1/api-keys" "boot-secret"
    rfl (by decide) (by decide)).2 (by decide)

/-- Counterexample for C3: with the Credential Store erroring on every
lookup (store unreachable), a tenant API key on a protected route fails
with InvalidAPIKeyError — the very InvalidCredential outcome the claim
says must not occur; auth.py has no internal-error kind at all
(the exception in `_validate_api_key_supabase` is caught and turned into
`None`, which `authenticate_request` maps to InvalidAPIKeyError). -/
theorem credential_store_error_counterexample :
    (authenticate_request storeErrAuthEnv ⟨none, []⟩ "POST" "/api/v1/payments"
      (some "sk_tenant_1") none).1 = .error .invalidAPIKey := rfl

/-- C3 amended: a Credential Store error or outage during API-key lookup
is swallowed and surfaces as InvalidCredential (InvalidAPIKeyError),
indistinguishable from a genuine no-match; the cache-store part of the
claim does hold — cache unavailability is treated as a cache miss and the
lookup falls through to the Credential Store, succeeding when the store
finds the key. -/
theorem store_error_invalid_cache_fail_open (env : AuthEnv) (settings : AuthSettings)
    (method path k : String) (f : String → SupaOutcome)
    (hpub : is_public_route method path = false)
    (hk : k ≠ "")
    (hnb : settings.bootstrap_api_key = none)
    (hna : settings.allowed_api_keys = [])
    (hsb : env.supabase = some f) :
    (f k = .storeError → get_cached_api_key env k = none →
      (authenticate_request env settings method path (some k) none).1 =
        .error .invalidAPIKey) ∧
    (∀ data, f k = .found data → (env.redisCache = none ∨ env.redisGetOk = false) →
      (authenticate_request env settings method path (some k) none).1 =
        .ok ⟨some data.customer_id, data.tier, data.api_key_id, false, false⟩) := by
  constructor
  · intro hf hmiss
    simp [authenticate_request, hpub, hnb, pyTruthy, hk, hna, hmiss,
      validate_api_key_supabase, hsb, hf]
  · intro data hf hcache
    have hmiss : get_cached_api_key env k = none := by
      unfold get_cached_api_key
      rcases hcache with hc | hc
      · simp [hc]
      · cases hr : env.redisCache with
        | none => rfl
        | some cache => simp [hc]
    simp [authenticate_request, hpub, hnb, pyTruthy, hk, hna, hmiss,
      validate_api_key_supabase, hsb, hf]

/-- Witness for C3 amended: with no Redis client and a store that finds
the key, authentication succeeds with the stored tenant and tier. -/
theorem store_error_invalid_cache_fail_open_witness :
    (authenticate_request ⟨none, true, true,
        some (fun _ => .found ⟨"cust-1", "growth", some "ak-1"⟩), fun _ => none⟩
      ⟨none, []⟩ "POST" "/api/v1/payments" (some "sk_live_1") none).1 =
      .ok ⟨some "cust-1", "growth", some "ak-1", false, false⟩ :=
  (store_error_invalid_cache_fail_open _ ⟨none, []⟩ "POST" "/api/v1/payments"
      "sk_live_1" (fun _ => .found ⟨"cust-1", "growth", some "ak-1"⟩)
      (by decide) (by decide) rfl rfl rfl).2
    ⟨"cust-1", "growth", some "ak-1"⟩ rfl (Or.inl rfl)

/-- A lookup miss in the physical idempotency cache means
`_get_cached_response` misses, whatever the read flag is. -/
theorem get_cached_response_of_lookup_none (env : PaymentEnv) (k : String)
    (hmiss : idem_cache_lookup env.redis k = none) :
    get_cached_response env k = none := by
  unfold get_cached_response
  unfold idem_cache_lookup at hmiss
  cases hr : env.redis with
  | none => rfl
  | some cache =>
    rw [hr] at hmiss
    change List.lookup ("idempotency:" ++ k) cache = none at hmiss
    change (if k = "" then none
      else if env.redisGetOk = true then List.lookup ("idempotency:" ++ k) cache
      else none) = none
    by_cases hk : k = ""
    · simp [hk]
    · rw [if_neg hk]
      cases hg : env.redisGetOk
      · simp
      · simpa using hmiss

/-- C1: when an idempotency key is supplied and the (unexpired) cache
already holds a response for it, `create_payment` returns exactly that
cached response, the provider adapter's create method is not invoked, no
audit entry is written, nothing is persisted, and the cache is left
unchanged. -/
theorem create_payment_cache_hit (env : PaymentEnv) (req : CreatePaymentRequest)
    (cid : Option String) (k : String)
    (cache : List (String × CreatePaymentResponse)) (resp : CreatePaymentResponse)
    (hk : k ≠ "")
    (hr : env.redis = some cache)
    (hget : env.redisGetOk = true)
    (hhit : cache.lookup ("idempotency:" ++ k) = some resp) :
    create_payment env req cid (some k) = (.ok resp, some cache, ⟨false, false, []⟩) := by
  simp [create_payment, pyTruthy, hk, get_cached_response, hr, hget, hhit]

/-- Witness for C1: a concrete warm-cache call replays the stored
response with an empty trace. -/
theorem create_payment_cache_hit_witness :
    create_payment wEnvHit wReq (some "cust1") (some "abc") =
      (.ok wResp, some [("idempotency:abc", wResp)], ⟨false, false, []⟩) :=
  create_payment_cache_hit wEnvHit wReq (some "cust1") "abc"
    [("idempotency:abc", wResp)] wResp (by decide) rfl rfl rfl

/-- C2: when an idempotency key is supplied, the cache has no entry for
it, and the attempt raises any exception (adapter resolution or the
provider call), then: the same exception propagates to the caller, the
idempotency cache is unchanged (so the key is still uncached), exactly
one failure audit entry is written and it carries the latency and the
error message, and a retry with the same key against the resulting cache
(with the provider configured) does invoke the provider adapter. -/
theorem create_payment_failure_not_cached (env : PaymentEnv) (req : CreatePaymentRequest)
    (cid : Option String) (k : String) (e : PaymentExc)
    (hk : k ≠ "")
    (hmiss : idem_cache_lookup env.redis k = none)
    (hexc : attemptExc env req = some e) :
    (create_payment env req cid (some k)).1 = .error e ∧
    (create_payment env req cid (some k)).2.1 = env.redis ∧
    idem_cache_lookup (create_payment env req cid (some k)).2.1 k = none ∧
    (create_payment env req cid (some k)).2.2.auditEntries =
      [failureAuditEntry env req cid e] ∧
    (failureAuditEntry env req cid e).latency_ms = env.latencyMs ∧
    (failureAuditEntry env req cid e).error_message = some e.message ∧
    (∀ env2 : PaymentEnv, env2.redis = env.redis → env2.providerConfigured = true →
      (create_payment env2 req cid (some k)).2.2.providerInvoked = true) := by
  have hget : get_cached_response env k = none :=
    get_cached_response_of_lookup_none env k hmiss
  have hmain : (create_payment env req cid (some k)).1 = .error e ∧
      (create_payment env req cid (some k)).2.1 = env.redis ∧
      (create_payment env req cid (some k)).2.2.auditEntries =
        [failureAuditEntry env req cid e] := by
    unfold attemptExc at hexc
    cases hpc : env.providerConfigured with
    | false =>
      rw [hpc] at hexc
      simp at hexc
      subst hexc
      refine ⟨?_, ?_, ?_⟩ <;> simp [create_payment, pyTruthy, hk, hget, hpc]
    | true =>
      rw [hpc] at hexc
      simp at hexc
      cases hao : env.adapterOutcome with
      | ok r => rw [hao] at hexc; simp at hexc
      | error e2 =>
        rw [hao] at hexc
        simp at hexc
        subst hexc
        refine ⟨?_, ?_, ?_⟩ <;> simp [create_payment, pyTruthy, hk, hget, hpc, hao]
  refine ⟨hmain.1, hmain.2.1, ?_, hmain.2.2, rfl, rfl, ?_⟩
  · rw [hmain.2.1]; exact hmiss
  · intro env2 h2 hpc2
    have hmiss2 : idem_cache_lookup env2.redis k = none := by rw [h2]; exact hmiss
    have hget2 : get_cached_response env2 k = none :=
      get_cached_response_of_lookup_none env2 k hmiss2
    cases hao : env2.adapterOutcome <;>
      simp [create_payment, pyTruthy, hk, hget2, hpc2, hao]

/-- Witness for C2: a concrete failed attempt propagates the
ProviderError, leaves the cache empty, and a retry invokes the provider. -/
theorem create_payment_failure_not_cached_witness :
    (create_payment wEnvFail wReq (some "cust1") (some "abc")).1 =
      .error (.providerError "boom") ∧
    (create_payment wEnvFail wReq (some "cust1") (some "abc")).2.1 = some [] ∧
    (create_payment wEnvFail wReq (some "cust1") (some "abc")).2.2.providerInvoked = true :=
  ⟨(create_payment_failure_not_cached wEnvFail wReq (some "cust1") "abc"
      (.providerError "boom") (by decide) rfl rfl).1,
   (create_payment_failure_not_cached wEnvFail wReq (some "cust1") "abc"
      (.providerError "boom") (by decide) rfl rfl).2.1,
   (create_payment_failure_not_cached wEnvFail wReq (some "cust1") "abc"
      (.providerError "boom") (by decide) rfl rfl).2.2.2.2.2.2
     wEnvFail rfl rfl⟩

/-- C9: on a fresh attempt (no idempotency cache hit) with the provider
configured, a successful provider call followed by a failing
PaymentRecord insert still returns the built payment response (the
persistence error is swallowed inside `_save_payment_to_db`), while a
provider-call failure propagates and fails the request. -/
theorem provider_vs_persistence_asymmetry (env : PaymentEnv) (req : CreatePaymentRequest)
    (cid : Option String) (ikey : Option String)
    (hmiss : pyTruthy ikey = false ∨ idem_cache_lookup env.redis (ikey.getD "") = none)
    (hpc : env.providerConfigured = true) :
    (∀ r, env.adapterOutcome = .ok r → env.supabasePresent = true →
      env.dbInsertOk = false →
      (create_payment env req cid ikey).1 = .ok (buildPaymentResponse env req r) ∧
      (create_payment env req cid ikey).2.2.dbSaved = false) ∧
    (∀ e, env.adapterOutcome = .error e →
      (create_payment env req cid ikey).1 = .error e) := by
  have hch : (if pyTruthy ikey then get_cached_response env (ikey.getD "") else none)
      = none := by
    rcases hmiss with h | h
    · simp [h]
    · cases hpt : pyTruthy ikey
      · simp
      · simp [get_cached_response_of_lookup_none env _ h]
  constructor
  · intro r hao hsb hdb
    constructor <;> simp [create_payment, hch, hpc, hao, hsb, hdb]
  · intro e hao
    simp [create_payment, hch, hpc, hao]

/-- Witness for C9: concrete run where the adapter succeeds, Supabase is
configured but the insert fails, and the request still returns the
response. -/
theorem provider_vs_persistence_asymmetry_witness :
    (create_payment wEnvDbFail wReq none none).1 =
      .ok (buildPaymentResponse wEnvDbFail wReq ⟨"tx9", .completed, none, none⟩) ∧
    (create_payment wEnvDbFail wReq none none).2.2.dbSaved = false :=
  (provider_vs_persistence_asymmetry wEnvDbFail wReq none none (Or.inl rfl) rfl).1
    ⟨"tx9", .completed, none, none⟩ rfl rfl rfl

/-- Counterexample for C4: the sorted-set member is `str(now)` with
one-second resolution, so checks in the same second collapse onto one
member.  With limit L = 2 and three checks all at second 1000 (all within
one window), the first two behave as claimed (remaining 1 then 0, not
exceeded), but the (L+1)-th check finds a count of only 1 and returns
is_exceeded = false — not the claimed is_exceeded = true. -/
theorem rate_limit_same_second_counterexample :
    (rlInfoAt sameSec 2 0).remaining = 1 ∧
    (rlInfoAt sameSec 2 0).is_exceeded = false ∧
    (rlInfoAt sameSec 2 1).remaining = 0 ∧
    (rlInfoAt sameSec 2 1).is_exceeded = false ∧
    (rlInfoAt sameSec 2 2).is_exceeded = false := by
  decide

/-- Removal of out-of-window entries is a no-op when every stored
timestamp is newer than the window start. -/
theorem zrem_noop (s : List Int) (hi : Int) (h : ∀ x ∈ s, hi < x) :
    zremrangebyscore s 0 hi = s := by
  unfold zremrangebyscore
  rw [List.filter_eq_self]
  intro a ha
  have hlt := h a ha
  simp [decide_eq_false (not_le.mpr hlt)]

/-- Length of the expected sorted-set contents. -/
theorem expSt_length (t : Nat → Int) (i : Nat) : (expSt t i).length = i := by
  simp [expSt]

/-- Membership in the expected sorted-set contents. -/
theorem expSt_mem (t : Nat → Int) (i : Nat) (x : Int) :
    x ∈ expSt t i ↔ ∃ j, j < i ∧ t j = x := by
  simp [expSt]

/-- Unfolding of the expected contents after one more check. -/
theorem expSt_succ (t : Nat → Int) (i : Nat) :
    expSt t (i + 1) = t i :: expSt t i := by
  simp [expSt, List.range_succ]

/-- One healthy check below the limit: not exceeded, remaining counted
down, timestamp inserted. -/
theorem check_step_not_exceeded (s : List Int) (now lim : Int)
    (hkeep : ∀ x ∈ s, now - RATE_LIMIT_WINDOW < x)
    (hcnt : (s.length : Int) < lim) :
    (check_rate_limit allOkRL s now lim).1.remaining
        = max 0 (max 0 (lim - s.length) - 1) ∧
    (check_rate_limit allOkRL s now lim).1.is_exceeded = false ∧
    (check_rate_limit allOkRL s now lim).2 = zadd s now := by
  have hz : zremrangebyscore s 0 (now - RATE_LIMIT_WINDOW) = s := zrem_noop _ _ hkeep
  have hex : decide ((s.length : Int) ≥ lim) = false := decide_eq_false (not_le.mpr hcnt)
  refine ⟨?_, ?_, ?_⟩ <;> simp [check_rate_limit, allOkRL, hz, hex]

/-- One healthy check at or above the limit: exceeded, no insertion, no
further decrement. -/
theorem check_step_exceeded (s : List Int) (now lim : Int)
    (hkeep : ∀ x ∈ s, now - RATE_LIMIT_WINDOW < x)
    (hcnt : lim ≤ (s.length : Int)) :
    (check_rate_limit allOkRL s now lim).1.remaining = max 0 (lim - s.length) ∧
    (check_rate_limit allOkRL s now lim).1.is_exceeded = true ∧
    (check_rate_limit allOkRL s now lim).2 = s := by
  have hz : zremrangebyscore s 0 (now - RATE_LIMIT_WINDOW) = s := zrem_noop _ _ hkeep
  have hex : decide ((s.length : Int) ≥ lim) = true := decide_eq_true hcnt
  refine ⟨?_, ?_, ?_⟩ <;> simp [check_rate_limit, allOkRL, hz, hex]

/-- Under a strictly increasing schedule that stays inside one window, no
stored timestamp ever expires at check time. -/
theorem rl_keep (L : Nat) (t : Nat → Int)
    (ht : ∀ i j : Nat, i < j → j ≤ L → t i < t j)
    (hw : t L < t 0 + RATE_LIMIT_WINDOW) (i : Nat) (hi : i ≤ L) :
    ∀ x ∈ expSt t i, t i - RATE_LIMIT_WINDOW < x := by
  intro x hx
  rw [expSt_mem] at hx
  obtain ⟨j, hj, rfl⟩ := hx
  have h0j : t 0 ≤ t j := by
    rcases Nat.eq_zero_or_pos j with h | h
    · rw [h]
    · exact (ht 0 j h (le_trans (Nat.le_of_lt hj) hi)).le
  have hiL : t i ≤ t L := by
    rcases Nat.lt_or_ge i L with h | h
    · exact (ht i L h le_rfl).le
    · have heq : i = L := Nat.le_antisymm hi h
      rw [heq]
  simp only [RATE_LIMIT_WINDOW] at hw ⊢
  omega

/-- Invariant: after `i ≤ L` checks of a strictly increasing in-window
schedule, the sorted set holds exactly the first `i` timestamps. -/
theorem rl_state_inv (L : Nat) (t : Nat → Int)
    (ht : ∀ i j : Nat, i < j → j ≤ L → t i < t j)
    (hw : t L < t 0 + RATE_LIMIT_WINDOW) :
    ∀ i, i ≤ L → rlStateAfter t (L : Int) i = expSt t i := by
  intro i
  induction i with
  | zero => intro _; rfl
  | succ n ih =>
    intro hle
    have hn : n ≤ L := Nat.le_of_succ_le hle
    have hnL : n < L := hle
    have hcnt : ((expSt t n).length : Int) < (L : Int) := by
      rw [expSt_length]; exact_mod_cast hnL
    have hstep := check_step_not_exceeded (expSt t n) (t n) (L : Int)
      (rl_keep L t ht hw n hn) hcnt
    rw [rlStateAfter, ih hn, hstep.2.2, expSt_succ]
    have hnotmem : t n ∉ expSt t n := by
      rw [expSt_mem]
      rintro ⟨j, hj, hje⟩
      exact absurd hje (ne_of_lt (ht j n hj hn))
    unfold zadd
    rw [if_neg hnotmem]

/-- C4 amended: for a fixed identifier and limit L, when the L + 1 checks
carry pairwise-distinct integer timestamps that all fall within one
window (and the store is healthy), the first L checks return `remaining`
strictly decreasing by one each time with is_exceeded = false, and the
(L+1)-th check returns is_exceeded = true with remaining 0 (no further
decrement) and inserts no timestamp into the window set.  (As the
counterexample shows, the distinct-timestamp hypothesis is necessary:
checks sharing a second collapse onto one sorted-set member.) -/
theorem rate_limit_window_monotonic (L : Nat) (t : Nat → Int)
    (ht : ∀ i j : Nat, i < j → j ≤ L → t i < t j)
    (hw : t L < t 0 + RATE_LIMIT_WINDOW) :
    (∀ i : Nat, i < L →
      (rlInfoAt t (L : Int) i).remaining = (L : Int) - 1 - (i : Int) ∧
      (rlInfoAt t (L : Int) i).is_exceeded = false) ∧
    (rlInfoAt t (L : Int) L).is_exceeded = true ∧
    (rlInfoAt t (L : Int) L).remaining = 0 ∧
    rlStateAfter t (L : Int) (L + 1) = rlStateAfter t (L : Int) L := by
  have hinv := rl_state_inv L t ht hw
  have hstepL := check_step_exceeded (expSt t L) (t L) (L : Int)
    (rl_keep L t ht hw L le_rfl) (by simp [expSt_length])
  have hsL := hinv L le_rfl
  refine ⟨?_, ?_, ?_, ?_⟩
  · intro i hi
    have hcnt : ((expSt t i).length : Int) < (L : Int) := by
      rw [expSt_length]; exact_mod_cast hi
    have hstep := check_step_not_exceeded (expSt t i) (t i) (L : Int)
      (rl_keep L t ht hw i hi.le) hcnt
    unfold rlInfoAt
    rw [hinv i hi.le]
    refine ⟨?_, hstep.2.1⟩
    rw [hstep.1, expSt_length]
    have h1 : (i : Int) < (L : Int) := by exact_mod_cast hi
    rw [max_eq_right (by omega : (0 : Int) ≤ (L : Int) - (i : Int))]
    rw [max_eq_right (by omega : (0 : Int) ≤ (L : Int) - (i : Int) - 1)]
    omega
  · unfold rlInfoAt
    rw [hsL]
    exact hstepL.2.1
  · unfold rlInfoAt
    rw [hsL, hstepL.1, expSt_length]
    simp
  · rw [rlStateAfter, hsL, hstepL.2.2]

/-- Witness for C4 amended: limit 2, checks at seconds 1000, 1001, 1002. -/
theorem rate_limit_window_monotonic_witness :
    (rlInfoAt (fun i => 1000 + (i : Int)) 2 0).remaining = 1 ∧
    (rlInfoAt (fun i => 1000 + (i : Int)) 2 2).is_exceeded = true ∧
    (rlInfoAt (fun i => 1000 + (i : Int)) 2 2).remaining = 0 := by
  have h := rate_limit_window_monotonic 2 (fun i => 1000 + (i : Int))
    (by
      intro i j hij hj
      show (1000 + (i : Int)) < 1000 + (j : Int)
      omega)
    (by decide)
  refine ⟨?_, h.2.1, h.2.2.1⟩
  have h0 := (h.1 0 (by omega)).1
  norm_num at h0
  exact h0

end UnifiedAPI
